import Mathlib

/-
Verification of the REST request-configuration builder and the view-frame
state machine of the `primate` admin console.

The development shallowly embeds the two scoped services:
 - the REST provider (`REST_CONFIG`, `configure`, `RestProvider.initialize`
   here `initializeRest`, `setBasicAuth`) from the REST factory module, and
 - the view-frame provider (`frameState`, breadcrumb and loader operations,
   `ViewFrameProvider.initialize` here `initializeFrame`) from
   `src/workbench/services/view-frame-provider.js`.

JavaScript dynamic values are modelled by `JsVal` (numbers as integers; every
numeric value occurring in the scoped sources is integral).  JavaScript
objects used as plain string-keyed records are modelled as association lists
in property insertion order.  Fallible code (an expression that would throw)
is modelled with `Option`.
-/

/-- A JavaScript primitive value.  `nan` is the NaN number value; all other
numbers are modelled as integers (`num`), which covers every numeric value
the scoped sources produce. -/
inductive JsVal where
  | undefined
  | null
  | nan
  | str (s : String)
  | num (n : Int)
  | bool (b : Bool)
deriving DecidableEq

/-- JavaScript ToString coercion on primitive values (as used by string
concatenation and template literals). -/
def JsVal.toString : JsVal → String
  | .undefined => "undefined"
  | .null => "null"
  | .nan => "NaN"
  | .str s => s
  | .num n => n.repr
  | .bool b => if b then "true" else "false"

/-- `typeof v === 'string'`. -/
def JsVal.isString : JsVal → Bool
  | .str _ => true
  | _ => false

/-- JavaScript ToNumber coercion restricted to the non-string values that can
reach it from `jsAdd` (the string case of `+` takes precedence, so string
parsing is never exercised and is mapped to NaN). `none` is NaN. -/
def JsVal.toNum : JsVal → Option Int
  | .null => some 0
  | .num n => some n
  | .bool b => some (if b then 1 else 0)
  | _ => none

/-- JavaScript binary `+` on primitive values: string concatenation (with
ToString coercion) when either operand is a string, numeric addition
otherwise. -/
def jsAdd (a b : JsVal) : JsVal :=
  if a.isString || b.isString then .str (a.toString ++ b.toString)
  else
    match a.toNum, b.toNum with
    | some x, some y => .num (x + y)
    | _, _ => .nan

/-- Modelled from the spec: the `_.isDefined` helper of the utility library
(`lib/utility.js` / `lib/core-utils.js`, not among the scoped sources) tests
that a value is not `undefined`; the spec relies on it to silently drop
unrecognized configuration keys. -/
def isDefined (v : JsVal) : Bool := v != JsVal.undefined

/-- The UTF-8 byte sequence of a Unicode code point. -/
def utf8Bytes (c : Nat) : List Nat :=
  if c < 128 then [c]
  else if c < 2048 then [192 + c / 64, 128 + c % 64]
  else if c < 65536 then [224 + c / 4096, 128 + c / 64 % 64, 128 + c % 64]
  else [240 + c / 262144, 128 + c / 4096 % 64, 128 + c / 64 % 64, 128 + c % 64]

/-- The UTF-8 bytes of a string. -/
def strUTF8 (s : String) : List Nat :=
  s.data.foldr (fun c acc => utf8Bytes c.toNat ++ acc) []

/-- Upper-case hexadecimal digit. -/
def hexUpper (n : Nat) : Char :=
  if n < 10 then Char.ofNat (48 + n) else Char.ofNat (55 + n)

/-- One byte under the `application/x-www-form-urlencoded` serializer used by
`URLSearchParams.toString`: space becomes `+`, ASCII alphanumerics and
`*`, `-`, `.`, `_` stand for themselves, every other byte is
percent-escaped. -/
def formByteEncode (b : Nat) : String :=
  if b = 32 then "+"
  else if (48 ≤ b ∧ b ≤ 57) ∨ (65 ≤ b ∧ b ≤ 90) ∨ (97 ≤ b ∧ b ≤ 122)
          ∨ b = 42 ∨ b = 45 ∨ b = 46 ∨ b = 95 then
    String.singleton (Char.ofNat b)
  else
    "%" ++ String.singleton (hexUpper (b / 16)) ++ String.singleton (hexUpper (b % 16))

/-- `application/x-www-form-urlencoded` percent-encoding of a string
(UTF-8 bytes, then `formByteEncode` each byte). -/
def formUrlEncode (s : String) : String :=
  String.join ((strUTF8 s).map formByteEncode)

/-- The standard base64 alphabet. -/
def base64Char (n : Nat) : Char :=
  if n < 26 then Char.ofNat (65 + n)
  else if n < 52 then Char.ofNat (97 + (n - 26))
  else if n < 62 then Char.ofNat (48 + (n - 52))
  else if n = 62 then Char.ofNat 43
  else Char.ofNat 47

/-- The four base64 digits of a 24-bit group. -/
def base64Group (w : Nat) : List Char :=
  [base64Char (w / 262144 % 64), base64Char (w / 4096 % 64),
   base64Char (w / 64 % 64), base64Char (w % 64)]

/-- Base64 encoding of a byte list, with `=` padding. -/
def base64Encode : List Nat → String
  | [] => ""
  | [a] => String.mk ((base64Group (a % 256 * 65536)).take 2) ++ "=="
  | [a, b] => String.mk ((base64Group (a % 256 * 65536 + b % 256 * 256)).take 3) ++ "="
  | a :: b :: c :: rest =>
      String.mk (base64Group (a % 256 * 65536 + b % 256 * 256 + c % 256))
        ++ base64Encode rest

/-- The `btoa` built-in: base64 of the string's code units.  `btoa` is only
defined on strings whose code points are at most 255 (it throws otherwise);
this development only applies it within that domain. -/
def btoa (s : String) : String :=
  base64Encode (s.data.map Char.toNat)

/-- A `URLSearchParams` object: its name/value pairs in insertion order. -/
structure URLSearchParams where
  pairs : List (String × String)
deriving DecidableEq

/-- `URLSearchParams.prototype.append`. -/
def URLSearchParams.append (p : URLSearchParams) (name value : String) : URLSearchParams :=
  ⟨p.pairs ++ [(name, value)]⟩

/-- `URLSearchParams.prototype.toString`: the
`application/x-www-form-urlencoded` serialization of the pairs. -/
def URLSearchParams.toString (p : URLSearchParams) : String :=
  String.intercalate "&" (p.pairs.map (fun kv => formUrlEncode kv.1 ++ "=" ++ formUrlEncode kv.2))

/-- Assignment `o[k] = v` on a plain object modelled as an association list:
an existing key keeps its position, a new key is appended (JavaScript
property insertion order). -/
def jsObjSet (l : List (String × JsVal)) (k : String) (v : JsVal) : List (String × JsVal) :=
  if l.any (fun p => p.1 == k) then
    l.map (fun p => if p.1 == k then (k, v) else p)
  else
    l ++ [(k, v)]

/-- Property lookup `o[k]` on a plain object modelled as an association list
(first occurrence; the lists built by `jsObjSet` have unique keys). -/
def jsObjGet (l : List (String × JsVal)) (k : String) : Option JsVal :=
  (l.find? (fun p => p.1 == k)).map Prod.snd

/-- The system-wide HTTP configuration store `REST_CONFIG` (its four
properties; the source object never gains or loses a property). -/
structure RestConfig where
  host : JsVal
  authorization : JsVal
  accept : JsVal
  contentType : JsVal
deriving DecidableEq

/-- The initial value of the `REST_CONFIG` store. -/
def REST_CONFIG : RestConfig :=
  { host := .str ""
  , authorization := .null
  , accept := .str "application/json"
  , contentType := .str "application/json" }

/-- A call-options argument of `configure`.  `headers`, `query` and `data`
are `some entries` when the corresponding field is an object (its own
enumerable string-keyed properties in insertion order, hence with pairwise
distinct keys) and `none` when the field is absent or not an object. -/
structure CallOptions where
  method : JsVal
  url : JsVal
  endpoint : JsVal
  resource : JsVal
  data : Option (List (String × JsVal))
  headers : Option (List (String × JsVal))
  query : Option (List (String × JsVal))
deriving DecidableEq

/-- Call options with every field absent. -/
def emptyOptions : CallOptions :=
  { method := .undefined, url := .undefined, endpoint := .undefined
  , resource := .undefined, data := none, headers := none, query := none }

/-- The request descriptor returned by `configure`.  `headers = none` models
the `delete request.headers` of an empty mapping. -/
structure RequestDescriptor where
  method : JsVal
  url : JsVal
  data : Option (List (String × JsVal))
  headers : Option (List (String × JsVal))
  withCredentials : Bool
deriving DecidableEq

/-- Lines 117-121 of the REST module: `request.url` is `options.url` if that
is a string, else `host + options.endpoint` if `endpoint` is a string, else
`host + options.resource` (JavaScript `+`).  The initializer on line 112
(`options.url || REST_CONFIG.host + options.resource`) is unconditionally
overwritten by this if/else and therefore not modelled separately. -/
def resolveUrl (cfg : RestConfig) (options : CallOptions) : JsVal :=
  if options.url.isString then options.url
  else jsAdd cfg.host (if options.endpoint.isString then options.endpoint else options.resource)

/-- Lines 125-132: the store-derived headers, set in source order
(`Authorization`, then `Accept`, then `Content-Type`), each only when the
corresponding store field is a string. -/
def storeHeaders (cfg : RestConfig) : List (String × JsVal) :=
  let h1 := if cfg.authorization.isString then jsObjSet [] "Authorization" cfg.authorization else []
  let h2 := if cfg.accept.isString then jsObjSet h1 "Accept" cfg.accept else h1
  if cfg.contentType.isString then jsObjSet h2 "Content-Type" cfg.contentType else h2

/-- Lines 134-138: caller-supplied `options.headers` entries assigned on top
of the store-derived headers, in iteration order. -/
def applyCallerHeaders (base : List (String × JsVal)) :
    Option (List (String × JsVal)) → List (String × JsVal)
  | some l => l.foldl (fun acc kv => jsObjSet acc kv.1 kv.2) base
  | none => base

/-- Lines 140-148: the `URLSearchParams` accumulated from `options.query`,
appending every entry whose value is not exactly `null`, with the value
coerced to a string by `append`. -/
def buildQuery (qs : List (String × JsVal)) : URLSearchParams :=
  qs.foldl (fun p kv => if kv.2 ≠ JsVal.null then p.append kv.1 kv.2.toString else p) ⟨[]⟩

/-- The request-configuration builder `configure` (lines 109-155). -/
def configure (cfg : RestConfig) (options : CallOptions) : RequestDescriptor :=
  let url0 := resolveUrl cfg options
  let headers := applyCallerHeaders (storeHeaders cfg) options.headers
  let url :=
    match options.query with
    | some qs => JsVal.str (url0.toString ++ "?" ++ (buildQuery qs).toString)
    | none => url0
  { method := options.method
  , url := url
  , data := options.data
  , headers := if headers.length ≤ 0 then none else some headers
  , withCredentials := cfg.authorization.isString }

example :
    (configure REST_CONFIG
      { emptyOptions with url := .str "http://x/y", query := some [("a", .str "b c"), ("n", .null), ("u", .undefined)] }).url
      = .str "http://x/y?a=b+c&u=undefined" := by decide

example : btoa "admin:admin" = "YWRtaW46YWRtaW4=" := by decide

example :
    (configure REST_CONFIG { emptyOptions with endpoint := .str "/kong" }).headers
      = some [("Accept", .str "application/json"), ("Content-Type", .str "application/json")] := by decide

/-- Dynamic read `REST_CONFIG[name]`; an unrecognized name yields
`undefined`, exactly as property access on the four-field store object. -/
def restConfigGet (cfg : RestConfig) (name : String) : JsVal :=
  if name = "host" then cfg.host
  else if name = "authorization" then cfg.authorization
  else if name = "accept" then cfg.accept
  else if name = "contentType" then cfg.contentType
  else .undefined

/-- Dynamic write `REST_CONFIG[name] = v` for a recognized name.  In
`initializeRest` this is only reached under the `isDefined` guard, so the
unrecognized-name case (which in JavaScript would create a new property) is
unreachable and leaves the store unchanged. -/
def restConfigSet (cfg : RestConfig) (name : String) (v : JsVal) : RestConfig :=
  if name = "host" then { cfg with host := v }
  else if name = "authorization" then { cfg with authorization := v }
  else if name = "accept" then { cfg with accept := v }
  else if name = "contentType" then { cfg with contentType := v }
  else cfg

/-- One iteration of the `RestProvider.initialize` loop body (lines 203-217):
skip the key unless the store's current value under it is defined; the
`authorization` key stores `'Basic ' + btoa(value)` (with `btoa`'s ToString
coercion of its argument), every other recognized key is copied verbatim. -/
def initStep (c : RestConfig) (kv : String × JsVal) : RestConfig :=
  if isDefined (restConfigGet c kv.1) then
    if kv.1 = "authorization" then
      restConfigSet c kv.1 (JsVal.str ("Basic " ++ btoa kv.2.toString))
    else
      restConfigSet c kv.1 kv.2
  else c

/-- `RestProvider.initialize` (lines 202-218): the loop body `initStep` over
the option object's keys in iteration order. -/
def initializeRest (cfg : RestConfig) (options : List (String × JsVal)) : RestConfig :=
  options.foldl initStep cfg

/-- `RestProvider.setBasicAuth` (lines 224-226): stores
`'Basic ' + btoa(username + ':' + (password || ''))`; an absent (or empty)
password contributes the empty string. -/
def setBasicAuth (cfg : RestConfig) (username : String) (password : Option String) : RestConfig :=
  { cfg with authorization := JsVal.str ("Basic " ++ btoa (username ++ ":" ++ password.getD "")) }

/-- One mutation of the REST configuration store through the provider's
`initialize` / `setBasicAuth` surface. -/
inductive RestOp where
  | init (options : List (String × JsVal))
  | basicAuth (username : String) (password : Option String)
deriving DecidableEq

/-- Apply one provider call to the store. -/
def applyRestOp (cfg : RestConfig) : RestOp → RestConfig
  | .init options => initializeRest cfg options
  | .basicAuth u p => setBasicAuth cfg u p

/-- Run a sequence of provider calls against a store. -/
def runRestOps (cfg : RestConfig) (ops : List RestOp) : RestConfig :=
  ops.foldl applyRestOp cfg

/-- The store's `authorization` is absent (`null`) or a ready-to-send
pre-encoded basic-auth value. -/
def authReady (v : JsVal) : Prop :=
  v = JsVal.null ∨ ∃ raw : String, v = JsVal.str ("Basic " ++ btoa raw)

/-- One breadcrumb entry of the view-frame history stack. -/
structure Breadcrumb where
  redirect : String
  displayText : String
deriving DecidableEq

/-- One header action button descriptor. -/
structure ActionButton where
  styles : String
  displayText : String
  redirect : String
  target : String
  endpoint : String
deriving DecidableEq

/-- The view-frame state object `frameState` (lines 52-62). -/
structure FrameState where
  sessionTheme : String
  frameTitle : String
  routeNext : String
  breadcrumbs : List Breadcrumb
  serverHost : String
  actionButtons : List ActionButton
  loaderWidth : Nat
  loaderStep : Nat
  loaderUnit : String
deriving DecidableEq

/-- The initial `frameState` value. -/
def frameState : FrameState :=
  { sessionTheme := "#FFFFFF"
  , frameTitle := ""
  , routeNext := ""
  , breadcrumbs := []
  , serverHost := ""
  , actionButtons := []
  , loaderWidth := 0
  , loaderStep := 50
  , loaderUnit := "0vw" }

/-- The module-level `cacheMap` (lines 43-45): its `loaderTimeout` slot is
`none` when the handle is `null` and `some delay` when a reset timer with the
given delay is outstanding. -/
structure CacheMap where
  loaderTimeout : Option Nat
deriving DecidableEq

/-- The initial `cacheMap` value. -/
def cacheMap : CacheMap := { loaderTimeout := none }

/-- The template literal `${width}vw`. -/
def vwUnit (w : Nat) : String := w.repr ++ "vw"

/-- `addBreadcrumb(redirect, displayText = null)` (lines 110-117).  The
`_.isEmpty` helper is modelled from the spec (missing display text is
defaulted): a `null`/absent or empty display text falls back to the
redirect. -/
def addBreadcrumb (st : FrameState) (redirect : String) (displayText : Option String) : FrameState :=
  let dt := match displayText with
    | none => redirect
    | some s => if s = "" then redirect else s
  let bc := st.breadcrumbs ++ [{ redirect := redirect, displayText := dt }]
  { st with breadcrumbs := bc
          , routeNext := if bc.length ≥ 2 then redirect else "" }

/-- `clearBreadcrumbs()` (lines 119-122). -/
def clearBreadcrumbs (st : FrameState) : FrameState :=
  { st with breadcrumbs := [], routeNext := "" }

/-- `previousRoute(shouldPop = true)` (lines 132-143), returning the updated
state and the returned string.  With `shouldPop` and a non-empty stack the
source pops the top entry and then evaluates `breadcrumbs.pop()['redirect']`;
on a stack that held exactly one entry the second `pop()` yields `undefined`
and the `'redirect'` access throws a `TypeError`, modelled as `none`. -/
def previousRoute (st : FrameState) (shouldPop : Bool) : Option (FrameState × String) :=
  if shouldPop = false then some (st, st.routeNext)
  else if st.breadcrumbs.length = 0 then
    some ({ st with routeNext := "" }, "")
  else
    let bc1 := st.breadcrumbs.dropLast
    match bc1.getLast? with
    | none => none
    | some entry =>
        some ({ st with breadcrumbs := bc1.dropLast, routeNext := entry.redirect }, entry.redirect)

/-- `setLoaderSteps(steps)` (lines 145-151): only when the loader is idle
(`loaderWidth === 0`) and `steps >= 1`, set `loaderStep = Math.ceil(100 /
steps)` (integer ceiling division for integral `steps`) and `loaderWidth =
1`. -/
def setLoaderSteps (st : FrameState) (steps : Nat) : FrameState :=
  if st.loaderWidth = 0 ∧ steps ≥ 1 then
    { st with loaderStep := (100 + steps - 1) / steps
            , loaderWidth := 1
            , loaderUnit := vwUnit 1 }
  else st

/-- `incrementLoader()` (lines 153-162): advance `loaderWidth` by
`loaderStep` capped at 100; on reaching 100 with no outstanding reset timer
(`_.isNil`, modelled from the spec as the null check on the handle),
schedule the one-shot 500-delay reset callback. -/
def incrementLoader (st : FrameState) (loaderTimeout : Option Nat) :
    FrameState × Option Nat :=
  let width := min (st.loaderWidth + st.loaderStep) 100
  let st2 := { st with loaderWidth := width, loaderUnit := vwUnit width }
  if width ≥ 100 ∧ loaderTimeout = none then (st2, some 500) else (st2, loaderTimeout)

/-- `loaderTimeoutCallback(state)` (lines 64-71): the deferred reset —
`loaderStep` and `loaderWidth` back to 0, and the timer handle cleared. -/
def loaderTimeoutCallback (st : FrameState) : FrameState × Option Nat :=
  ({ st with loaderStep := 0, loaderWidth := 0, loaderUnit := vwUnit 0 }, none)

/-- `resetLoader()` (lines 164-168): immediate idle transition; the timer
handle is not touched. -/
def resetLoader (st : FrameState) : FrameState :=
  { st with loaderStep := 0, loaderWidth := 0, loaderUnit := vwUnit 0 }

/-- `k` successive `incrementLoader()` calls threading the timer slot. -/
def incrementLoaderIter : Nat → FrameState × Option Nat → FrameState × Option Nat
  | 0, p => p
  | Nat.succ m, p =>
      let q := incrementLoaderIter m p
      incrementLoader q.1 q.2

/-- The trajectory of one loader cycle: `setLoaderSteps n` from state `st0`
with no timer outstanding, followed by `k` calls of `incrementLoader()`. -/
def loaderRun (st0 : FrameState) (n k : Nat) : FrameState × Option Nat :=
  incrementLoaderIter k (setLoaderSteps st0 n, none)

/-- A `ViewFrameProvider.initialize` options argument: any subset of the
`frameState` fields (a `some` field is a key present in the options object).
Unrecognized keys are skipped by the source's `isDefined` guard on the
current state value and are not represented. -/
structure FrameOptions where
  sessionTheme : Option String
  frameTitle : Option String
  routeNext : Option String
  breadcrumbs : Option (List Breadcrumb)
  serverHost : Option String
  actionButtons : Option (List ActionButton)
  loaderWidth : Option Nat
  loaderStep : Option Nat
  loaderUnit : Option String
deriving DecidableEq

/-- Frame options with every key absent. -/
def emptyFrameOptions : FrameOptions :=
  { sessionTheme := none, frameTitle := none, routeNext := none
  , breadcrumbs := none, serverHost := none, actionButtons := none
  , loaderWidth := none, loaderStep := none, loaderUnit := none }

/-- `ViewFrameProvider.initialize` (lines 176-185): each key present in the
options overwrites the state field of that name; every field not named is
left unchanged (no derived field is recomputed). -/
def initializeFrame (st : FrameState) (opts : FrameOptions) : FrameState :=
  { sessionTheme := opts.sessionTheme.getD st.sessionTheme
  , frameTitle := opts.frameTitle.getD st.frameTitle
  , routeNext := opts.routeNext.getD st.routeNext
  , breadcrumbs := opts.breadcrumbs.getD st.breadcrumbs
  , serverHost := opts.serverHost.getD st.serverHost
  , actionButtons := opts.actionButtons.getD st.actionButtons
  , loaderWidth := opts.loaderWidth.getD st.loaderWidth
  , loaderStep := opts.loaderStep.getD st.loaderStep
  , loaderUnit := opts.loaderUnit.getD st.loaderUnit }

example : (initializeRest REST_CONFIG [("authorization", .str "who:secret")]).authorization
    = .str ("Basic " ++ btoa "who:secret") := by decide

example : previousRoute { frameState with breadcrumbs := [⟨"/a", "A"⟩] } true = none := by decide

example : (loaderRun frameState 3 3).1.loaderWidth = 100 ∧ (loaderRun frameState 3 3).2 = some 500 := by decide


/-- `jsObjSet` never produces an empty object. -/
theorem jsObjSet_ne_nil (l : List (String × JsVal)) (k : String) (v : JsVal) :
    jsObjSet l k v ≠ [] := by
  unfold jsObjSet
  split
  case isTrue h =>
    intro hc
    rcases l with _ | ⟨p, t⟩
    · simp at h
    · simp at hc
  case isFalse h => simp

/-- Overwriting the entry of key `k` in place does not disturb lookups of a
different key. -/
theorem find?_set_map_ne (t : List (String × JsVal)) (k k2 : String) (v : JsVal)
    (hne : k2 ≠ k) :
    (t.map (fun p => if p.1 == k then (k, v) else p)).find? (fun p => p.1 == k2)
      = t.find? (fun p => p.1 == k2) := by
  have hkk2 : (k == k2) = false := beq_eq_false_iff_ne.mpr (fun h => hne h.symm)
  induction t with
  | nil => rfl
  | cons p t ih =>
    cases hpk : (p.1 == k) with
    | true =>
      have hp1 : p.1 = k := eq_of_beq hpk
      have hp2 : (p.1 == k2) = false := by rw [hp1]; exact hkk2
      simp only [List.map_cons, hpk, if_true]
      rw [List.find?_cons_of_neg _ (by simpa using hkk2),
          List.find?_cons_of_neg _ (by simpa using hp2), ih]
    | false =>
      simp only [List.map_cons, hpk, if_false]
      cases hp2 : (p.1 == k2) with
      | true =>
        rw [List.find?_cons_of_pos _ (by simpa using hp2),
            List.find?_cons_of_pos _ (by simpa using hp2)]
        simp [hpk]
      | false =>
        rw [List.find?_cons_of_neg _ (by simpa using hp2),
            List.find?_cons_of_neg _ (by simpa using hp2), ih]

/-- When key `k` occurs, overwriting it in place makes its lookup the new
entry. -/
theorem find?_set_map_self (t : List (String × JsVal)) (k : String) (v : JsVal)
    (h : t.any (fun p => p.1 == k) = true) :
    (t.map (fun p => if p.1 == k then (k, v) else p)).find? (fun p => p.1 == k)
      = some (k, v) := by
  induction t with
  | nil => simp at h
  | cons p t ih =>
    cases hpk : (p.1 == k) with
    | true =>
      simp only [List.map_cons, hpk, if_true]
      rw [List.find?_cons_of_pos _ (by simp)]
    | false =>
      simp only [List.any_cons, hpk, Bool.false_or] at h
      simp only [List.map_cons, hpk, if_false]
      rw [List.find?_cons_of_neg _ (by simpa using hpk), ih h]

/-- Reading back the key just assigned. -/
theorem jsObjGet_set_self (l : List (String × JsVal)) (k : String) (v : JsVal) :
    jsObjGet (jsObjSet l k v) k = some v := by
  unfold jsObjSet jsObjGet
  split
  case isTrue h => rw [find?_set_map_self l k v h]; rfl
  case isFalse h =>
    rw [List.find?_append]
    have h1 : l.find? (fun p => p.1 == k) = none := by
      rw [List.find?_eq_none]
      intro p hp hpk
      exact h (List.any_eq_true.mpr ⟨p, hp, hpk⟩)
    rw [h1, Option.none_or, List.find?_cons_of_pos _ (by simp)]
    rfl

/-- Assigning one key leaves every other key unchanged. -/
theorem jsObjGet_set_ne (l : List (String × JsVal)) (k k2 : String) (v : JsVal)
    (hne : k2 ≠ k) : jsObjGet (jsObjSet l k v) k2 = jsObjGet l k2 := by
  unfold jsObjSet jsObjGet
  split
  case isTrue h => rw [find?_set_map_ne l k k2 v hne]
  case isFalse h =>
    rw [List.find?_append]
    have h1 : List.find? (fun p => p.1 == k2) [(k, v)] = none := by
      rw [List.find?_eq_none]
      intro p hp hpk
      simp at hp
      rw [hp] at hpk
      exact hne (eq_of_beq hpk).symm
    rw [h1, Option.or_none]

/-- Folding caller headers over a base: keys not among the caller entries
keep their base value. -/
theorem foldl_set_get_notin (hs : List (String × JsVal)) (base : List (String × JsVal))
    (k : String) (h : ∀ kv ∈ hs, kv.1 ≠ k) :
    jsObjGet (hs.foldl (fun acc kv => jsObjSet acc kv.1 kv.2) base) k = jsObjGet base k := by
  induction hs generalizing base with
  | nil => rfl
  | cons kv t ih =>
    simp only [List.foldl_cons]
    rw [ih _ (fun x hx => h x (List.mem_cons_of_mem _ hx))]
    exact jsObjGet_set_ne base kv.1 k kv.2 (fun hc => h kv (List.mem_cons_self _ _) hc.symm)

/-- Folding caller headers over a base: a key present among the caller
entries (with pairwise distinct keys) ends with its caller value. -/
theorem foldl_set_get_mem (hs : List (String × JsVal)) (base : List (String × JsVal))
    (k : String) (v : JsVal) (hnd : (hs.map Prod.fst).Nodup)
    (h : jsObjGet hs k = some v) :
    jsObjGet (hs.foldl (fun acc kv => jsObjSet acc kv.1 kv.2) base) k = some v := by
  induction hs generalizing base with
  | nil => simp [jsObjGet] at h
  | cons kv t ih =>
    simp only [List.map_cons, List.nodup_cons] at hnd
    simp only [List.foldl_cons]
    cases hpk : (kv.1 == k) with
    | true =>
      have hp1 : kv.1 = k := eq_of_beq hpk
      have hv : v = kv.2 := by
        unfold jsObjGet at h
        rw [List.find?_cons_of_pos _ (by simpa using hpk)] at h
        simpa using h.symm
      have hnotin : ∀ x ∈ t, x.1 ≠ k := by
        intro x hx hc
        apply hnd.1
        rw [hp1, ← hc]
        exact List.mem_map_of_mem Prod.fst hx
      rw [foldl_set_get_notin t _ k hnotin, hp1, hv]
      exact jsObjGet_set_self base k kv.2
    | false =>
      have ht : jsObjGet t k = some v := by
        unfold jsObjGet at h ⊢
        rwa [List.find?_cons_of_neg _ (by simpa using hpk)] at h
      exact ih _ hnd.2 ht

/-- The fold of caller headers is empty exactly when both the base and the
caller entries are. -/
theorem foldl_set_eq_nil_iff (hs : List (String × JsVal)) (base : List (String × JsVal)) :
    hs.foldl (fun acc kv => jsObjSet acc kv.1 kv.2) base = [] ↔ base = [] ∧ hs = [] := by
  induction hs generalizing base with
  | nil => simp
  | cons kv t ih =>
    simp only [List.foldl_cons]
    rw [ih]
    simp [jsObjSet_ne_nil base kv.1 kv.2]

/-- The store-derived `Authorization` header is present exactly when the
store's authorization is a string, with that exact value. -/
theorem storeHeaders_get_auth (cfg : RestConfig) :
    jsObjGet (storeHeaders cfg) "Authorization"
      = if cfg.authorization.isString then some cfg.authorization else none := by
  unfold storeHeaders
  cases h1 : cfg.authorization.isString <;> cases h2 : cfg.accept.isString <;>
    cases h3 : cfg.contentType.isString <;>
      simp [jsObjSet, jsObjGet, List.find?]

/-- The store-derived `Accept` header is present exactly when the store's
accept type is a string, with that exact value. -/
theorem storeHeaders_get_accept (cfg : RestConfig) :
    jsObjGet (storeHeaders cfg) "Accept"
      = if cfg.accept.isString then some cfg.accept else none := by
  unfold storeHeaders
  cases h1 : cfg.authorization.isString <;> cases h2 : cfg.accept.isString <;>
    cases h3 : cfg.contentType.isString <;>
      simp [jsObjSet, jsObjGet, List.find?]

/-- The store-derived `Content-Type` header is present exactly when the
store's content type is a string, with that exact value. -/
theorem storeHeaders_get_contentType (cfg : RestConfig) :
    jsObjGet (storeHeaders cfg) "Content-Type"
      = if cfg.contentType.isString then some cfg.contentType else none := by
  unfold storeHeaders
  cases h1 : cfg.authorization.isString <;> cases h2 : cfg.accept.isString <;>
    cases h3 : cfg.contentType.isString <;>
      simp [jsObjSet, jsObjGet, List.find?]

/-- The store-derived headers are empty exactly when none of the three store
fields is a string. -/
theorem storeHeaders_eq_nil_iff (cfg : RestConfig) :
    storeHeaders cfg = []
      ↔ cfg.authorization.isString = false ∧ cfg.accept.isString = false
          ∧ cfg.contentType.isString = false := by
  unfold storeHeaders
  cases h1 : cfg.authorization.isString <;> cases h2 : cfg.accept.isString <;>
    cases h3 : cfg.contentType.isString <;>
      simp [jsObjSet]

/-- The pairs accumulated by the query loop: the non-`null` entries in
iteration order, values coerced to strings. -/
theorem buildQuery_pairs_aux (qs : List (String × JsVal)) (p : URLSearchParams) :
    (qs.foldl (fun p kv => if kv.2 ≠ JsVal.null then p.append kv.1 kv.2.toString else p) p).pairs
      = p.pairs ++ (qs.filter (fun kv => kv.2 != JsVal.null)).map (fun kv => (kv.1, kv.2.toString)) := by
  induction qs generalizing p with
  | nil => simp
  | cons kv t ih =>
    rw [List.foldl_cons]
    by_cases h : kv.2 = JsVal.null
    · rw [if_neg (by simp [h]), List.filter_cons, if_neg (by simp [h])]
      exact ih p
    · rw [if_pos h, List.filter_cons, if_pos (by simpa using h), ih]
      simp [URLSearchParams.append]

/-- The serialized query string: percent-encoded non-`null` entries joined by
`&` in iteration order. -/
theorem buildQuery_toString (qs : List (String × JsVal)) :
    (buildQuery qs).toString
      = String.intercalate "&" ((qs.filter (fun kv => kv.2 != JsVal.null)).map
          (fun kv => formUrlEncode kv.1 ++ "=" ++ formUrlEncode kv.2.toString)) := by
  unfold buildQuery URLSearchParams.toString
  rw [buildQuery_pairs_aux]
  simp only [List.map_map, List.nil_append]
  rfl

/-- The loader-cycle invariant: width within bounds, unit derived from the
width, and the reset timer outstanding exactly when the width has reached
100 (with the fixed 500 delay). -/
def loaderInv (p : FrameState × Option Nat) : Prop :=
  p.1.loaderWidth ≤ 100 ∧ p.1.loaderUnit = vwUnit p.1.loaderWidth
    ∧ p.2 = (if p.1.loaderWidth = 100 then some 500 else none)

/-- `incrementLoader` preserves the loader-cycle invariant and never
decreases the width. -/
theorem incrementLoader_inv (p : FrameState × Option Nat) (h : loaderInv p) :
    loaderInv (incrementLoader p.1 p.2)
      ∧ p.1.loaderWidth ≤ (incrementLoader p.1 p.2).1.loaderWidth := by
  obtain ⟨h1, h2, h3⟩ := h
  have hmin : min (p.1.loaderWidth + p.1.loaderStep) 100 ≤ 100 := Nat.min_le_right _ _
  have hmono : p.1.loaderWidth ≤ min (p.1.loaderWidth + p.1.loaderStep) 100 :=
    le_min (Nat.le_add_right _ _) h1
  simp only [incrementLoader, loaderInv]
  split
  next hg =>
    refine ⟨⟨hmin, rfl, ?_⟩, hmono⟩
    show some 500 = if min (p.1.loaderWidth + p.1.loaderStep) 100 = 100 then some 500 else none
    rw [if_pos (le_antisymm hmin hg.1)]
  next hg =>
    refine ⟨⟨hmin, rfl, ?_⟩, hmono⟩
    show p.2 = if min (p.1.loaderWidth + p.1.loaderStep) 100 = 100 then some 500 else none
    by_cases hw : p.1.loaderWidth = 100
    · have h100 : min (p.1.loaderWidth + p.1.loaderStep) 100 = 100 := by
        rw [min_eq_right]
        omega
      rw [h100, if_pos rfl, h3, if_pos hw]
    · have hnone : p.2 = none := by rw [h3, if_neg hw]
      have hlt : ¬(min (p.1.loaderWidth + p.1.loaderStep) 100 ≥ 100) :=
        fun hge => hg ⟨hge, hnone⟩
      rw [if_neg (by omega : ¬(min (p.1.loaderWidth + p.1.loaderStep) 100 = 100)), hnone]

/-- The loader-cycle invariant holds along the whole trajectory of a cycle
started from an idle state. -/
theorem loaderRun_inv (st0 : FrameState) (n : Nat) (h0 : st0.loaderWidth = 0)
    (hn : 1 ≤ n) : ∀ k, loaderInv (loaderRun st0 n k) := by
  intro k
  induction k with
  | zero =>
    simp only [loaderRun, incrementLoaderIter, setLoaderSteps, loaderInv]
    split
    next => exact ⟨by norm_num, rfl, by norm_num⟩
    next hq => exact absurd ⟨h0, hn⟩ hq
  | succ m ih => exact (incrementLoader_inv _ ih).1

/-- `(100 + n - 1) / n` is an upper bound for the ceiling of `100 / n`. -/
theorem ceil_lower (n : Nat) (hn : 1 ≤ n) : 100 ≤ n * ((100 + n - 1) / n) := by
  have h1 := Nat.div_add_mod (100 + n - 1) n
  have h2 : (100 + n - 1) % n < n := Nat.mod_lt _ (by omega)
  obtain ⟨t, ht⟩ : ∃ t, n * ((100 + n - 1) / n) = t := ⟨_, rfl⟩
  obtain ⟨r, hr⟩ : ∃ r, (100 + n - 1) % n = r := ⟨_, rfl⟩
  rw [ht, hr] at h1
  rw [hr] at h2
  rw [ht]
  omega

/-- `(100 + n - 1) / n` is the least `m` with `100 ≤ n * m`. -/
theorem ceil_min (n m : Nat) (hn : 1 ≤ n) (h : 100 ≤ n * m) :
    (100 + n - 1) / n ≤ m := by
  rw [← Nat.lt_succ_iff, Nat.div_lt_iff_lt_mul (by omega : 0 < n)]
  have e : (m + 1) * n = n * m + n := by ring
  rw [e]
  obtain ⟨t, ht⟩ : ∃ t, n * m = t := ⟨_, rfl⟩
  rw [ht] at h ⊢
  omega

/-- `restConfigSet` under a key other than `authorization` leaves the
authorization field unchanged. -/
theorem restConfigSet_auth_of_ne (c : RestConfig) (k : String) (v : JsVal)
    (h : k ≠ "authorization") : (restConfigSet c k v).authorization = c.authorization := by
  unfold restConfigSet
  repeat' split
  all_goals rfl

/-- One `initialize` loop iteration keeps the authorization field absent or
pre-encoded. -/
theorem initStep_authReady (c : RestConfig) (kv : String × JsVal)
    (h : authReady c.authorization) : authReady (initStep c kv).authorization := by
  unfold initStep
  split
  · split
    · next hk =>
      right
      refine ⟨kv.2.toString, ?_⟩
      rw [hk]
      simp [restConfigSet]
    · next hk => rw [restConfigSet_auth_of_ne c kv.1 kv.2 hk]; exact h
  · exact h

/-- `RestProvider.initialize` keeps the authorization field absent or
pre-encoded. -/
theorem initializeRest_authReady (options : List (String × JsVal)) (c : RestConfig)
    (h : authReady c.authorization) : authReady (initializeRest c options).authorization := by
  induction options generalizing c with
  | nil => exact h
  | cons kv t ih => exact ih _ (initStep_authReady c kv h)

/-- Any sequence of `initialize` / `setBasicAuth` calls keeps the
authorization field absent or pre-encoded. -/
theorem runRestOps_authReady (ops : List RestOp) (c : RestConfig)
    (h : authReady c.authorization) : authReady (runRestOps c ops).authorization := by
  induction ops generalizing c with
  | nil => exact h
  | cons op t ih =>
    apply ih
    cases op with
    | init options => exact initializeRest_authReady options c h
    | basicAuth u p => exact Or.inr ⟨u ++ ":" ++ p.getD "", rfl⟩

/-- A lookup miss means no entry carries the key. -/
theorem jsObjGet_none_notin (l : List (String × JsVal)) (k : String)
    (h : jsObjGet l k = none) : ∀ kv ∈ l, kv.1 ≠ k := by
  intro kv hkv he
  unfold jsObjGet at h
  rw [Option.map_eq_none', List.find?_eq_none] at h
  exact h kv hkv (by simp [he])

/-- C1: `configure` resolves the descriptor URL by precedence: an explicit
string `options.url` is used verbatim regardless of the host, endpoint and
resource fields; otherwise the store's host is concatenated with
`options.endpoint` when that is a string; otherwise with `options.resource`
(ToString-coerced by the JavaScript `+`).  Stated for a store whose host is a
string (the store's declared type) and for options without a structured
query (query-string appending is the subject of C3). -/
theorem C1_url_resolution_precedence (cfg : RestConfig) (opts : CallOptions)
    (h : String) (hh : cfg.host = JsVal.str h) (hq : opts.query = none) :
    (∀ s, opts.url = JsVal.str s → (configure cfg opts).url = JsVal.str s)
    ∧ (opts.url.isString = false →
        ∀ e, opts.endpoint = JsVal.str e → (configure cfg opts).url = JsVal.str (h ++ e))
    ∧ (opts.url.isString = false → opts.endpoint.isString = false →
        (configure cfg opts).url = JsVal.str (h ++ opts.resource.toString)) := by
  have hcfg : (configure cfg opts).url = resolveUrl cfg opts := by
    simp only [configure, hq]
  refine ⟨?_, ?_, ?_⟩
  · intro s hs
    rw [hcfg]
    unfold resolveUrl
    rw [hs]
    rfl
  · intro hu e he
    rw [hcfg]
    unfold resolveUrl
    rw [if_neg (by simp [hu]), he, hh]
    simp [jsAdd, JsVal.isString, JsVal.toString]
  · intro hu hend
    rw [hcfg]
    unfold resolveUrl
    rw [if_neg (by simp [hu]), if_neg (by simp [hend]), hh]
    simp [jsAdd, JsVal.isString, JsVal.toString]

/-- Concrete options for the C1 witness. -/
def optsC1 : CallOptions :=
  { emptyOptions with url := .str "custom://absolute", endpoint := .str "/e", resource := .str "/r" }

/-- Witness for C1 at a concrete store and concrete options. -/
theorem C1_url_resolution_precedence_witness :
    (REST_CONFIG.host = JsVal.str "" ∧ optsC1.query = none)
    ∧ (configure REST_CONFIG optsC1).url = JsVal.str "custom://absolute"
    ∧ (configure { REST_CONFIG with host := JsVal.str "http://h" }
        { optsC1 with url := JsVal.undefined }).url = JsVal.str "http://h/e" := by
  refine ⟨⟨rfl, rfl⟩, ?_, ?_⟩
  · exact (C1_url_resolution_precedence REST_CONFIG optsC1 "" rfl rfl).1 "custom://absolute" rfl
  · exact ((C1_url_resolution_precedence { REST_CONFIG with host := JsVal.str "http://h" }
      { optsC1 with url := JsVal.undefined } "http://h" rfl rfl).2.1 rfl "/e" rfl).trans (by decide)

/-- C2: the claim says the breadcrumb machine never fails and that
`previousRoute(true)` on a one-entry stack (as on an empty stack) returns the
empty string without raising.  The code contradicts the one-entry half: it
pops the single entry and then reads `['redirect']` off `pop()` of the
now-empty stack, which is `undefined`, raising a TypeError (modelled as
`none`); the empty-stack half does return `""` without failing. -/
theorem C2_previousRoute_one_entry_error :
    previousRoute { frameState with breadcrumbs := [{ redirect := "/a", displayText := "A" }] } true
      = none
    ∧ previousRoute { frameState with routeNext := "/x" } true
        = some ({ frameState with routeNext := "" }, "") := by decide

/-- C3: with a structured `options.query`, `configure` appends to the
resolved URL a single `?` (regardless of one already present) followed by the
serialization of the mapping: entries whose value is exactly `null` are
omitted, every other entry is percent-encoded, in iteration order, joined by
`&`. -/
theorem C3_query_serialization (cfg : RestConfig) (opts : CallOptions)
    (qs : List (String × JsVal)) (hq : opts.query = some qs) :
    (configure cfg opts).url
      = JsVal.str ((configure cfg { opts with query := none }).url.toString ++ "?"
          ++ String.intercalate "&" ((qs.filter (fun kv => kv.2 != JsVal.null)).map
              (fun kv => formUrlEncode kv.1 ++ "=" ++ formUrlEncode kv.2.toString))) := by
  have h1 : (configure cfg { opts with query := none }).url = resolveUrl cfg opts := by
    simp only [configure]
    rfl
  rw [h1]
  simp only [configure, hq]
  rw [buildQuery_toString]

/-- Concrete query mapping for the C3 witness: a space to encode, a `null`
entry to drop, an `undefined` entry to keep, a numeric entry to coerce. -/
def qsC3 : List (String × JsVal) :=
  [("a", .str "b c"), ("n", .null), ("u", .undefined), ("k", .num 7)]

/-- Concrete options for the C3 witness (URL already contains a `?`). -/
def optsC3 : CallOptions :=
  { emptyOptions with url := .str "http://x/y?z=1", query := some qsC3 }

/-- Witness for C3 at a concrete store and concrete options. -/
theorem C3_query_serialization_witness :
    optsC3.query = some qsC3
    ∧ (configure REST_CONFIG optsC3).url
        = JsVal.str "http://x/y?z=1?a=b+c&u=undefined&k=7" := by
  refine ⟨rfl, ?_⟩
  exact (C3_query_serialization REST_CONFIG optsC3 qsC3 rfl).trans (by decide)

/-- C4: header assembly in `configure`.  `withCredentials` is forced on
exactly when the store's authorization is a string (a non-string
authorization is skipped and leaves the flag off); the store-derived
`Authorization`, `Accept` and `Content-Type` headers come from the store
fields that are strings; caller-supplied `options.headers` entries are
applied last and override same-named store-derived headers; and the
descriptor's headers field is omitted entirely exactly when the resulting
mapping is empty (no store field is a string and the caller mapping is
empty). -/
theorem C4_headers_assembly (cfg : RestConfig) (opts : CallOptions)
    (hs : List (String × JsVal)) (hh : opts.headers = some hs)
    (hnd : (hs.map Prod.fst).Nodup) :
    (configure cfg opts).withCredentials = cfg.authorization.isString
    ∧ (∀ k v, jsObjGet hs k = some v →
        jsObjGet ((configure cfg opts).headers.getD []) k = some v)
    ∧ (jsObjGet hs "Authorization" = none →
        jsObjGet ((configure cfg opts).headers.getD []) "Authorization"
          = if cfg.authorization.isString then some cfg.authorization else none)
    ∧ (jsObjGet hs "Accept" = none →
        jsObjGet ((configure cfg opts).headers.getD []) "Accept"
          = if cfg.accept.isString then some cfg.accept else none)
    ∧ (jsObjGet hs "Content-Type" = none →
        jsObjGet ((configure cfg opts).headers.getD []) "Content-Type"
          = if cfg.contentType.isString then some cfg.contentType else none)
    ∧ ((configure cfg opts).headers = none
        ↔ cfg.authorization.isString = false ∧ cfg.accept.isString = false
            ∧ cfg.contentType.isString = false ∧ hs = []) := by
  have hhead : (configure cfg opts).headers
      = (if (hs.foldl (fun acc kv => jsObjSet acc kv.1 kv.2) (storeHeaders cfg)).length ≤ 0
         then none
         else some (hs.foldl (fun acc kv => jsObjSet acc kv.1 kv.2) (storeHeaders cfg))) := by
    simp only [configure, hh, applyCallerHeaders]
  have hget : (configure cfg opts).headers.getD []
      = hs.foldl (fun acc kv => jsObjSet acc kv.1 kv.2) (storeHeaders cfg) := by
    rw [hhead]
    by_cases hM : hs.foldl (fun acc kv => jsObjSet acc kv.1 kv.2) (storeHeaders cfg) = []
    · rw [if_pos (by simp [hM]), hM]
      rfl
    · rw [if_neg (by simpa [List.length_eq_zero] using hM)]
      rfl
  refine ⟨?_, ?_, ?_, ?_, ?_, ?_⟩
  · simp only [configure]
  · intro k v hkv
    rw [hget]
    exact foldl_set_get_mem hs _ k v hnd hkv
  · intro hA
    rw [hget, foldl_set_get_notin hs _ "Authorization" (jsObjGet_none_notin hs _ hA)]
    exact storeHeaders_get_auth cfg
  · intro hA
    rw [hget, foldl_set_get_notin hs _ "Accept" (jsObjGet_none_notin hs _ hA)]
    exact storeHeaders_get_accept cfg
  · intro hA
    rw [hget, foldl_set_get_notin hs _ "Content-Type" (jsObjGet_none_notin hs _ hA)]
    exact storeHeaders_get_contentType cfg
  · rw [hhead]
    by_cases hM : hs.foldl (fun acc kv => jsObjSet acc kv.1 kv.2) (storeHeaders cfg) = []
    · obtain ⟨hsh, hhs⟩ := (foldl_set_eq_nil_iff hs (storeHeaders cfg)).mp hM
      obtain ⟨h1, h2, h3⟩ := (storeHeaders_eq_nil_iff cfg).mp hsh
      rw [if_pos (by simp [hM])]
      simp [h1, h2, h3, hhs]
    · rw [if_neg (by simpa [List.length_eq_zero] using hM)]
      constructor
      · intro hcon
        exact absurd hcon (by simp)
      · rintro ⟨h1, h2, h3, h4⟩
        exact absurd ((foldl_set_eq_nil_iff hs (storeHeaders cfg)).mpr
          ⟨(storeHeaders_eq_nil_iff cfg).mpr ⟨h1, h2, h3⟩, h4⟩) hM

/-- Concrete caller headers for the C4 witness: one overriding a
store-derived header, one new. -/
def hsC4 : List (String × JsVal) :=
  [("Accept", .str "text/plain"), ("X-Request-Id", .num 7)]

/-- Concrete options for the C4 witness. -/
def optsC4 : CallOptions := { emptyOptions with headers := some hsC4 }

/-- Witness for C4 at the initial store (authorization `null`, hence not a
string) and concrete caller headers. -/
theorem C4_headers_assembly_witness :
    (optsC4.headers = some hsC4 ∧ (hsC4.map Prod.fst).Nodup)
    ∧ (configure REST_CONFIG optsC4).withCredentials = false
    ∧ jsObjGet ((configure REST_CONFIG optsC4).headers.getD []) "Accept"
        = some (JsVal.str "text/plain")
    ∧ jsObjGet ((configure REST_CONFIG optsC4).headers.getD []) "Content-Type"
        = some (JsVal.str "application/json")
    ∧ jsObjGet ((configure REST_CONFIG optsC4).headers.getD []) "Authorization" = none := by
  have h := C4_headers_assembly REST_CONFIG optsC4 hsC4 rfl (by decide)
  refine ⟨⟨rfl, by decide⟩, ?_, ?_, ?_, ?_⟩
  · exact h.1.trans (by decide)
  · exact h.2.1 "Accept" (JsVal.str "text/plain") (by decide)
  · exact (h.2.2.2.2.1 (by decide)).trans (by decide)
  · exact (h.2.2.1 (by decide)).trans (by decide)

/-- C5: across every sequence of `initialize` / `setBasicAuth` calls the
store's authorization is either absent (`null`) or a ready-to-send
`"Basic " + base64` value — encoding happens at set-time, never at request
time; `initialize` ignores unrecognized keys without raising and overwrites
recognized fields, with the authorization credential stored pre-encoded;
`setBasicAuth` stores `"Basic " + base64(username + ":" + password)` with an
absent password treated as the empty string. -/
theorem C5_authorization_ready (ops : List RestOp) :
    authReady (runRestOps REST_CONFIG ops).authorization
    ∧ (∀ cfg k v, k ≠ "host" → k ≠ "authorization" → k ≠ "accept" → k ≠ "contentType" →
        initializeRest cfg [(k, v)] = cfg)
    ∧ (∀ cfg v, isDefined cfg.authorization = true →
        (initializeRest cfg [("authorization", v)]).authorization
          = JsVal.str ("Basic " ++ btoa v.toString))
    ∧ (∀ cfg v, isDefined cfg.host = true → (initializeRest cfg [("host", v)]).host = v)
    ∧ (∀ cfg v, isDefined cfg.accept = true → (initializeRest cfg [("accept", v)]).accept = v)
    ∧ (∀ cfg v, isDefined cfg.contentType = true →
        (initializeRest cfg [("contentType", v)]).contentType = v)
    ∧ (∀ cfg u p, (setBasicAuth cfg u p).authorization
        = JsVal.str ("Basic " ++ btoa (u ++ ":" ++ p.getD ""))) := by
  refine ⟨runRestOps_authReady ops REST_CONFIG (Or.inl rfl), ?_, ?_, ?_, ?_, ?_, ?_⟩
  · intro cfg k v h1 h2 h3 h4
    show initStep cfg (k, v) = cfg
    unfold initStep restConfigGet
    rw [if_neg h1, if_neg h2, if_neg h3, if_neg h4]
    simp [isDefined]
  · intro cfg v hd
    simp [initializeRest, initStep, restConfigGet, restConfigSet, hd]
  · intro cfg v hd
    simp [initializeRest, initStep, restConfigGet, restConfigSet, hd]
  · intro cfg v hd
    simp [initializeRest, initStep, restConfigGet, restConfigSet, hd]
  · intro cfg v hd
    simp [initializeRest, initStep, restConfigGet, restConfigSet, hd]
  · intro cfg u p
    simp [setBasicAuth]

/-- Concrete call sequence for the C5 witness: a `setBasicAuth` later
overwritten by an `initialize` carrying an unknown key and a credential. -/
def opsC5 : List RestOp :=
  [.basicAuth "admin" none, .init [("junk", .num 1), ("authorization", .str "user:pass")]]

/-- Witness for C5 at a concrete call sequence. -/
theorem C5_authorization_ready_witness :
    isDefined REST_CONFIG.authorization = true
    ∧ authReady (runRestOps REST_CONFIG opsC5).authorization
    ∧ (runRestOps REST_CONFIG opsC5).authorization
        = JsVal.str ("Basic " ++ btoa "user:pass")
    ∧ initializeRest REST_CONFIG [("junk", JsVal.num 1)] = REST_CONFIG := by
  have h := C5_authorization_ready opsC5
  refine ⟨by decide, h.1, by decide, ?_⟩
  exact h.2.1 REST_CONFIG "junk" (JsVal.num 1) (by decide) (by decide) (by decide) (by decide)

/-- C6: within one loader cycle started by `setLoaderSteps(n)` from an idle
state, across any number of `incrementLoader()` calls: `loaderWidth` never
exceeds 100 and is monotonically non-decreasing; `loaderUnit` always equals
the rendering of `loaderWidth`; the one-shot reset callback is outstanding —
with the fixed 500-time-unit delay — exactly when the width has reached 100,
so it is scheduled only when no reset timer is already pending and never
re-scheduled; and the deferred callback returns `loaderWidth` and
`loaderStep` to 0 and clears the handle without further calls. -/
theorem C6_loader_cycle (st0 : FrameState) (n : Nat) (h0 : st0.loaderWidth = 0)
    (hn : 1 ≤ n) :
    (∀ k, (loaderRun st0 n k).1.loaderWidth ≤ 100)
    ∧ (∀ k, (loaderRun st0 n k).1.loaderWidth ≤ (loaderRun st0 n (k + 1)).1.loaderWidth)
    ∧ (∀ k, (loaderRun st0 n k).1.loaderUnit = vwUnit (loaderRun st0 n k).1.loaderWidth)
    ∧ (∀ k, (loaderRun st0 n k).2
        = (if (loaderRun st0 n k).1.loaderWidth = 100 then some 500 else none))
    ∧ (∀ st : FrameState, (loaderTimeoutCallback st).1.loaderWidth = 0
        ∧ (loaderTimeoutCallback st).1.loaderStep = 0
        ∧ (loaderTimeoutCallback st).2 = none) := by
  refine ⟨?_, ?_, ?_, ?_, ?_⟩
  · intro k
    exact (loaderRun_inv st0 n h0 hn k).1
  · intro k
    exact (incrementLoader_inv _ (loaderRun_inv st0 n h0 hn k)).2
  · intro k
    exact (loaderRun_inv st0 n h0 hn k).2.1
  · intro k
    exact (loaderRun_inv st0 n h0 hn k).2.2
  · intro st
    exact ⟨rfl, rfl, rfl⟩

/-- Witness for C6: a cycle with 3 steps reaches 100 at the third increment,
schedules the 500-delay reset exactly once, and the callback resets. -/
theorem C6_loader_cycle_witness :
    (frameState.loaderWidth = 0 ∧ 1 ≤ 3)
    ∧ (∀ k, (loaderRun frameState 3 k).1.loaderWidth ≤ 100)
    ∧ (loaderRun frameState 3 2).2 = none
    ∧ (loaderRun frameState 3 3).1.loaderWidth = 100
    ∧ (loaderRun frameState 3 3).2 = some 500
    ∧ (loaderRun frameState 3 4).2 = some 500
    ∧ (loaderTimeoutCallback (loaderRun frameState 3 3).1).1.loaderWidth = 0 := by
  refine ⟨⟨rfl, by decide⟩, (C6_loader_cycle frameState 3 rfl (by decide)).1,
    by decide, by decide, by decide, by decide, by decide⟩

/-- C7: `setLoaderSteps(n)` called while idle (`loaderWidth = 0`, with a
valid `n ≥ 1`) sets `loaderWidth` to 1 and `loaderStep` to the ceiling of
`100 / n` — characterized as the least `m` with `100 ≤ n * m`; called while
not idle it is a no-op that changes neither `loaderStep` nor `loaderWidth`
(the whole state is unchanged). -/
theorem C7_setLoaderSteps_guard (st : FrameState) (n : Nat) :
    (st.loaderWidth = 0 → 1 ≤ n →
      ((setLoaderSteps st n).loaderWidth = 1
        ∧ 100 ≤ n * (setLoaderSteps st n).loaderStep
        ∧ ∀ m, 100 ≤ n * m → (setLoaderSteps st n).loaderStep ≤ m))
    ∧ (st.loaderWidth ≠ 0 → setLoaderSteps st n = st) := by
  constructor
  · intro h0 hn
    have he : setLoaderSteps st n
        = { st with loaderStep := (100 + n - 1) / n, loaderWidth := 1, loaderUnit := vwUnit 1 } := by
      unfold setLoaderSteps
      rw [if_pos ⟨h0, hn⟩]
    rw [he]
    exact ⟨rfl, ceil_lower n hn, fun m hm => ceil_min n m hn hm⟩
  · intro h0
    unfold setLoaderSteps
    rw [if_neg (fun hc => h0 hc.1)]

/-- Witness for C7: 8 steps from the fresh state give width 1 and step
`ceil(100/8) = 13`; with the loader mid-cycle the call changes nothing. -/
theorem C7_setLoaderSteps_guard_witness :
    (frameState.loaderWidth = 0 ∧ 1 ≤ 8
      ∧ ({ frameState with loaderWidth := 40 } : FrameState).loaderWidth ≠ 0)
    ∧ ((setLoaderSteps frameState 8).loaderWidth = 1
        ∧ 100 ≤ 8 * (setLoaderSteps frameState 8).loaderStep
        ∧ ∀ m, 100 ≤ 8 * m → (setLoaderSteps frameState 8).loaderStep ≤ m)
    ∧ setLoaderSteps { frameState with loaderWidth := 40 } 8
        = { frameState with loaderWidth := 40 }
    ∧ (setLoaderSteps frameState 8).loaderStep = 13 := by
  refine ⟨⟨rfl, by decide, by decide⟩,
    (C7_setLoaderSteps_guard frameState 8).1 rfl (by decide),
    (C7_setLoaderSteps_guard { frameState with loaderWidth := 40 } 8).2 (by decide),
    by decide⟩

/-- The state after `clearBreadcrumbs(); addBreadcrumb("/a","A")`. -/
def crumbsS1 : FrameState := addBreadcrumb (clearBreadcrumbs frameState) "/a" (some "A")

/-- The state after the subsequent `addBreadcrumb("/b","B")`. -/
def crumbsS2 : FrameState := addBreadcrumb crumbsS1 "/b" (some "B")

/-- C8: the breadcrumb scenario: after clearing and pushing `/a` then `/b`,
`routeNext` is `""` after the first push (stack below two entries) and `"/b"`
after the second; `previousRoute()` then returns `"/a"` and leaves the stack
empty; `previousRoute()` on the now-empty stack returns `""`. -/
theorem C8_breadcrumb_scenario :
    crumbsS1.routeNext = ""
    ∧ crumbsS1.breadcrumbs = [{ redirect := "/a", displayText := "A" }]
    ∧ crumbsS2.routeNext = "/b"
    ∧ crumbsS2.breadcrumbs
        = [{ redirect := "/a", displayText := "A" }, { redirect := "/b", displayText := "B" }]
    ∧ (previousRoute crumbsS2 true).map (fun q => (q.2, q.1.breadcrumbs, q.1.routeNext))
        = some ("/a", [], "/a")
    ∧ ((previousRoute crumbsS2 true).bind (fun q => previousRoute q.1 true)).map
        (fun q => (q.2, q.1.routeNext)) = some ("", "") := by decide

/-- C9: the fresh initial frame state carries `loaderStep = 50` (not 0), so a
single `incrementLoader()` from the initial idle state (no cycle ever
started) raises `loaderWidth` from 0 to 50. -/
theorem C9_initial_loader_step :
    frameState.loaderStep = 50 ∧ frameState.loaderWidth = 0
    ∧ cacheMap.loaderTimeout = none
    ∧ (incrementLoader frameState cacheMap.loaderTimeout).1.loaderWidth = 50 := by decide

/-- C10: `ViewFrameProvider.initialize` (here `initializeFrame`) overwrites
exactly the recognized state fields named in its options and leaves every
other field unchanged; in particular it never recomputes the derived
`loaderUnit` from a newly set `loaderWidth`: after
`initialize({loaderWidth: 40})` on the fresh state the width is 40 but the
unit string stays `"0vw"`, not the rendering of 40. -/
theorem C10_initializeFrame_fields (st : FrameState) (opts : FrameOptions) :
    (initializeFrame st opts).sessionTheme = opts.sessionTheme.getD st.sessionTheme
    ∧ (initializeFrame st opts).frameTitle = opts.frameTitle.getD st.frameTitle
    ∧ (initializeFrame st opts).routeNext = opts.routeNext.getD st.routeNext
    ∧ (initializeFrame st opts).breadcrumbs = opts.breadcrumbs.getD st.breadcrumbs
    ∧ (initializeFrame st opts).serverHost = opts.serverHost.getD st.serverHost
    ∧ (initializeFrame st opts).actionButtons = opts.actionButtons.getD st.actionButtons
    ∧ (initializeFrame st opts).loaderWidth = opts.loaderWidth.getD st.loaderWidth
    ∧ (initializeFrame st opts).loaderStep = opts.loaderStep.getD st.loaderStep
    ∧ (initializeFrame st opts).loaderUnit = opts.loaderUnit.getD st.loaderUnit
    ∧ (initializeFrame frameState { emptyFrameOptions with loaderWidth := some 40 }).loaderWidth = 40
    ∧ (initializeFrame frameState { emptyFrameOptions with loaderWidth := some 40 }).loaderUnit = "0vw"
    ∧ (initializeFrame frameState { emptyFrameOptions with loaderWidth := some 40 }).loaderUnit
        ≠ vwUnit 40 := by
  refine ⟨rfl, rfl, rfl, rfl, rfl, rfl, rfl, rfl, rfl, by decide, by decide, by decide⟩
